import Mathlib

/-!
Verification of the TaskFi status & eligibility resolver.

The definitions below are a shallow embedding of `src/lib/contract.ts`:
`formatTaskData` (status derivation from raw contract fields) and the three
action-eligibility predicates `canSubmitProofForTask`, `canClaimTask` and
`canClaimFailedTask`.  Timestamps are Unix seconds modelled as `Nat`,
monetary amounts (BigNumber wei) as `Nat`, and the on-chain coarse status as
a raw `Nat` (the TypeScript enum values are 0, 1, 2, and the switch statement
has a default branch for any other number).  The wall clock (`Date.now()`)
is made an explicit `now` parameter so the functions are pure, exactly as the
spec describes the resolver.

An optional user address (`userAddress?: string`) is modelled as
`Option String`; the JavaScript truthiness test `!userAddress` rejects both
`undefined` and the empty string, which the embedding reproduces.
`String.prototype.toLowerCase` is modelled character-wise via
`Char.toLower`.
-/

/-- Character-wise lower-casing, the model of `String.prototype.toLowerCase`
as used on wallet addresses in `contract.ts`. -/
def toLowerCase (s : String) : String :=
  ⟨s.data.map Char.toLower⟩

/-- `TaskStatus` enum from `contract.ts` (matches the smart contract):
`InProgress = 0`. -/
def TaskStatus.InProgress : Nat := 0

/-- `TaskStatus.Complete = 1`. -/
def TaskStatus.Complete : Nat := 1

/-- `TaskStatus.Failed = 2`. -/
def TaskStatus.Failed : Nat := 2

/-- Raw task data as fetched from the contract (`ContractTask` in
`contract.ts`).  `status` is kept as a raw `Nat` since the value comes from
the chain and the resolver's switch has a default branch. -/
structure ContractTask where
  taskId : Nat
  user : String
  description : String
  deposit : Nat
  deadline : Nat
  status : Nat
  proofOfCompletion : String
  createdAt : Nat
  deriving Repr, DecidableEq

/-- The four UI status values (`FormattedTask['status']` in `contract.ts`):
`'active' | 'completed' | 'failed' | 'in-review'`. -/
inductive UiStatus where
  | active
  | completed
  | failed
  | inReview
  deriving Repr, DecidableEq

/-- Formatted task for UI consumption (`FormattedTask` in `contract.ts`).
The `stake` field (a decimal string produced by `ethers.utils.formatEther`)
is pure display formatting and carries no decision logic, so it is not
modelled; every field the resolver reads is present. -/
structure FormattedTask where
  id : Nat
  creator : String
  description : String
  deadline : Nat
  proof : String
  status : UiStatus
  deposit : Nat
  createdAt : Nat
  claimed : Bool
  canSubmitProof : Bool
  canClaim : Bool
  deriving Repr, DecidableEq

/-- Embedding of `formatTaskData` from `contract.ts` lines 135-196, with the
internal `Date.now()` made the explicit parameter `now`.
`hasProof` embeds `proofOfCompletion && proofOfCompletion.length > 0`
(an empty string is falsy), `isExpired` embeds `deadlineTimestamp < now`,
and `isClaimed` embeds `status === Complete && deposit.eq(0)`.  The switch
on `status` is translated branch by branch, including the default branch. -/
def formatTaskData (taskData : ContractTask) (now : Nat) : FormattedTask :=
  let hasProof := decide (taskData.proofOfCompletion ≠ "")
  let isExpired := decide (taskData.deadline < now)
  let isClaimed := decide (taskData.status = TaskStatus.Complete) &&
    decide (taskData.deposit = 0)
  let r :=
    if taskData.status = TaskStatus.InProgress then
      if isExpired then
        (UiStatus.failed, false, false)
      else if hasProof then
        (UiStatus.inReview, false, false)
      else
        (UiStatus.active, true, false)
    else if taskData.status = TaskStatus.Complete then
      (UiStatus.completed, false, !isClaimed)
    else if taskData.status = TaskStatus.Failed then
      (UiStatus.failed, false, false)
    else
      (UiStatus.active, !hasProof && !isExpired, false)
  { id := taskData.taskId
    creator := taskData.user
    description := taskData.description
    deadline := taskData.deadline
    proof := taskData.proofOfCompletion
    status := r.1
    deposit := taskData.deposit
    createdAt := taskData.createdAt
    claimed := isClaimed
    canSubmitProof := r.2.1
    canClaim := r.2.2 }

/-- Embedding of `canSubmitProofForTask` from `contract.ts` lines 328-337:
owner (case-insensitive) + status active + no proof + deadline strictly in
the future.  `Date.now()` is the explicit `now`; the guard
`if (!userAddress || !task) return false` is the `none`/empty-string cases. -/
def canSubmitProofForTask (task : FormattedTask) (userAddress : Option String)
    (now : Nat) : Bool :=
  match userAddress with
  | none => false
  | some u =>
    if u = "" then false
    else
      decide (toLowerCase task.creator = toLowerCase u) &&
      decide (task.status = UiStatus.active) &&
      decide (task.proof = "") &&
      decide (now < task.deadline)

/-- Embedding of `canClaimTask` from `contract.ts` lines 345-353: owner
(case-insensitive) + status completed + not already claimed. -/
def canClaimTask (task : FormattedTask) (userAddress : Option String) : Bool :=
  match userAddress with
  | none => false
  | some u =>
    if u = "" then false
    else
      decide (toLowerCase task.creator = toLowerCase u) &&
      decide (task.status = UiStatus.completed) &&
      !task.claimed

/-- Embedding of `canClaimFailedTask` from `contract.ts` lines 361-368:
NOT the owner (case-insensitive) + status failed. -/
def canClaimFailedTask (task : FormattedTask) (userAddress : Option String) :
    Bool :=
  match userAddress with
  | none => false
  | some u =>
    if u = "" then false
    else
      decide (toLowerCase task.creator ≠ toLowerCase u) &&
      decide (task.status = UiStatus.failed)

/-- The spec's `DerivedTaskView` (§3): UI status plus the three
action-eligibility flags. -/
structure DerivedTaskView where
  uiStatus : UiStatus
  canSubmitProof : Bool
  canClaimOwn : Bool
  canClaimAsOther : Bool
  deriving Repr, DecidableEq

/-- The spec's resolver `classify(record, now, viewer)` (§4.1) as the source
composes it: `formatTaskData` derives the UI status, then the three
predicates compute the eligibility flags for the viewer. -/
def classify (record : ContractTask) (now : Nat) (viewer : Option String) :
    DerivedTaskView :=
  let task := formatTaskData record now
  { uiStatus := task.status
    canSubmitProof := canSubmitProofForTask task viewer now
    canClaimOwn := canClaimTask task viewer
    canClaimAsOther := canClaimFailedTask task viewer }

/-- "The viewer matches the creator, case-insensitively": the identity test
the source repeats in each predicate, a present (truthy) address whose
lower-casing equals the creator's. -/
def viewerMatches (viewer : Option String) (creator : String) : Bool :=
  match viewer with
  | none => false
  | some u => decide (u ≠ "") && decide (toLowerCase creator = toLowerCase u)

/-- A sample raw task used by the concrete witnesses below. -/
def sampleTask : ContractTask :=
  { taskId := 1
    user := "0xAbC"
    description := "demo task"
    deposit := 5
    deadline := 100
    status := TaskStatus.InProgress
    proofOfCompletion := ""
    createdAt := 1 }

theorem classify_uiStatus (r : ContractTask) (now : Nat) (viewer : Option String) :
    (classify r now viewer).uiStatus = (formatTaskData r now).status := rfl

theorem classify_canSubmitProof (r : ContractTask) (now : Nat)
    (viewer : Option String) :
    (classify r now viewer).canSubmitProof =
      canSubmitProofForTask (formatTaskData r now) viewer now := rfl

theorem classify_canClaimOwn (r : ContractTask) (now : Nat)
    (viewer : Option String) :
    (classify r now viewer).canClaimOwn =
      canClaimTask (formatTaskData r now) viewer := rfl

theorem classify_canClaimAsOther (r : ContractTask) (now : Nat)
    (viewer : Option String) :
    (classify r now viewer).canClaimAsOther =
      canClaimFailedTask (formatTaskData r now) viewer := rfl

theorem formatTaskData_creator (r : ContractTask) (now : Nat) :
    (formatTaskData r now).creator = r.user := rfl

theorem formatTaskData_deadline (r : ContractTask) (now : Nat) :
    (formatTaskData r now).deadline = r.deadline := rfl

theorem formatTaskData_proof (r : ContractTask) (now : Nat) :
    (formatTaskData r now).proof = r.proofOfCompletion := rfl

theorem formatTaskData_claimed (r : ContractTask) (now : Nat) :
    (formatTaskData r now).claimed =
      (decide (r.status = TaskStatus.Complete) && decide (r.deposit = 0)) := rfl

theorem formatTaskData_status_active (r : ContractTask) (now : Nat)
    (h0 : r.status = TaskStatus.InProgress) (h1 : ¬ r.deadline < now)
    (h2 : r.proofOfCompletion = "") :
    (formatTaskData r now).status = UiStatus.active := by
  simp [formatTaskData, h0, h1, h2]

theorem formatTaskData_status_completed (r : ContractTask) (now : Nat)
    (h0 : r.status = TaskStatus.Complete) :
    (formatTaskData r now).status = UiStatus.completed := by
  simp [formatTaskData, h0, TaskStatus.InProgress, TaskStatus.Complete]

theorem formatTaskData_status_failed (r : ContractTask) (now : Nat)
    (h0 : r.status = TaskStatus.Failed) :
    (formatTaskData r now).status = UiStatus.failed := by
  simp [formatTaskData, h0, TaskStatus.InProgress, TaskStatus.Complete,
    TaskStatus.Failed]

/-- Claim C1: for every task record with `coarseStatus == InProgress`,
`deadline >= now`, and empty `proofReference`, the resolver classifies
`uiStatus` as active, and `canSubmitProof` is true exactly when the viewer
matches the creator case-insensitively and the deadline is strictly greater
than `now`. -/
theorem claim1_active_submit (r : ContractTask) (now : Nat)
    (viewer : Option String) (h0 : r.status = TaskStatus.InProgress)
    (h1 : now ≤ r.deadline) (h2 : r.proofOfCompletion = "") :
    (classify r now viewer).uiStatus = UiStatus.active ∧
    (classify r now viewer).canSubmitProof =
      (viewerMatches viewer r.user && decide (now < r.deadline)) := by
  have hni : ¬ r.deadline < now := Nat.not_lt.mpr h1
  have hst := formatTaskData_status_active r now h0 hni h2
  refine ⟨by rw [classify_uiStatus]; exact hst, ?_⟩
  rw [classify_canSubmitProof]
  cases viewer with
  | none => rfl
  | some u =>
    by_cases hu : u = ""
    · simp [canSubmitProofForTask, viewerMatches, hu]
    · simp [canSubmitProofForTask, viewerMatches, hu, hst,
        formatTaskData_creator, formatTaskData_proof, formatTaskData_deadline,
        h2]

/-- Witness for C1 at a concrete input: creator `"0xAbC"`, viewer `"0xabc"`
(case-insensitive match), deadline 100, now 50. -/
theorem claim1_witness :
    (classify sampleTask 50 (some "0xabc")).uiStatus = UiStatus.active ∧
    (classify sampleTask 50 (some "0xabc")).canSubmitProof =
      (viewerMatches (some "0xabc") sampleTask.user && decide (50 < sampleTask.deadline)) :=
  claim1_active_submit sampleTask 50 (some "0xabc") rfl (by decide) rfl

/-- Claim C2: for every task record with `coarseStatus == InProgress` and
`deadline < now`, the resolver classifies `uiStatus` as failed — the
quantification over every `proofOfCompletion` includes non-empty proofs,
so a late proof never yields in-review. -/
theorem claim2_expired_failed (r : ContractTask) (now : Nat)
    (viewer : Option String) (h0 : r.status = TaskStatus.InProgress)
    (h1 : r.deadline < now) :
    (classify r now viewer).uiStatus = UiStatus.failed := by
  rw [classify_uiStatus]
  simp [formatTaskData, h0, h1]

/-- Witness for C2 at a concrete input with a non-empty late proof. -/
theorem claim2_witness :
    (classify { sampleTask with proofOfCompletion := "ipfs://xyz" } 200
      (some "0xabc")).uiStatus = UiStatus.failed :=
  claim2_expired_failed { sampleTask with proofOfCompletion := "ipfs://xyz" }
    200 (some "0xabc") rfl (by decide)

/-- Claim C3: for every task record with `coarseStatus == InProgress`,
`deadline >= now` (the boundary `deadline == now` included), and non-empty
`proofReference`, the resolver yields `uiStatus == in-review` and
`canSubmitProof == false`; and whenever `coarseStatus` is `Complete` or
`Failed`, `uiStatus` is not in-review. -/
theorem claim3_inReview (r : ContractTask) (now : Nat) (viewer : Option String) :
    (r.status = TaskStatus.InProgress → now ≤ r.deadline →
      r.proofOfCompletion ≠ "" →
      (classify r now viewer).uiStatus = UiStatus.inReview ∧
      (classify r now viewer).canSubmitProof = false) ∧
    (r.status = TaskStatus.Complete ∨ r.status = TaskStatus.Failed →
      decide ((classify r now viewer).uiStatus = UiStatus.inReview) = false) := by
  constructor
  · intro h0 h1 h2
    have hni : ¬ r.deadline < now := Nat.not_lt.mpr h1
    have hst : (formatTaskData r now).status = UiStatus.inReview := by
      simp [formatTaskData, h0, hni, h2]
    refine ⟨by rw [classify_uiStatus]; exact hst, ?_⟩
    rw [classify_canSubmitProof]
    cases viewer with
    | none => rfl
    | some u =>
      by_cases hu : u = ""
      · simp [canSubmitProofForTask, hu]
      · simp [canSubmitProofForTask, hu, hst]
  · rintro (h0 | h0) <;> rw [classify_uiStatus]
    · rw [formatTaskData_status_completed r now h0]; decide
    · rw [formatTaskData_status_failed r now h0]; decide

/-- Witness for C3 at concrete inputs: an in-progress record carrying a proof
with a live deadline is in-review with no further submission; a completed
record is not in-review. -/
theorem claim3_witness :
    ((classify { sampleTask with proofOfCompletion := "ipfs://xyz" } 50
        (some "0xabc")).uiStatus = UiStatus.inReview ∧
      (classify { sampleTask with proofOfCompletion := "ipfs://xyz" } 50
        (some "0xabc")).canSubmitProof = false) ∧
    decide ((classify { sampleTask with status := TaskStatus.Complete } 50
      (some "0xabc")).uiStatus = UiStatus.inReview) = false :=
  ⟨(claim3_inReview { sampleTask with proofOfCompletion := "ipfs://xyz" } 50
      (some "0xabc")).1 rfl (by decide) (by decide),
    (claim3_inReview { sampleTask with status := TaskStatus.Complete } 50
      (some "0xabc")).2 (Or.inl rfl)⟩

/-- Claim C4: for every task record with `coarseStatus == Complete`, every
`now`, and every viewer, the resolver yields `uiStatus == completed` and
`canClaimAsOther == false`. -/
theorem claim4_completed_noThirdParty (r : ContractTask) (now : Nat)
    (viewer : Option String) (h0 : r.status = TaskStatus.Complete) :
    (classify r now viewer).uiStatus = UiStatus.completed ∧
    (classify r now viewer).canClaimAsOther = false := by
  have hst := formatTaskData_status_completed r now h0
  refine ⟨by rw [classify_uiStatus]; exact hst, ?_⟩
  rw [classify_canClaimAsOther]
  cases viewer with
  | none => rfl
  | some u =>
    by_cases hu : u = ""
    · simp [canClaimFailedTask, hu]
    · simp [canClaimFailedTask, hu, hst]

/-- Witness for C4 at a concrete input: a completed task viewed by a
non-creator still yields `canClaimAsOther = false`. -/
theorem claim4_witness :
    (classify { sampleTask with status := TaskStatus.Complete } 50
      (some "0xDEF")).uiStatus = UiStatus.completed ∧
    (classify { sampleTask with status := TaskStatus.Complete } 50
      (some "0xDEF")).canClaimAsOther = false :=
  claim4_completed_noThirdParty { sampleTask with status := TaskStatus.Complete }
    50 (some "0xDEF") rfl

/-- Claim C5: for every task record with `coarseStatus == Failed` and a
present viewer `u`, the resolver yields `uiStatus == failed`,
`canSubmitProof == false` and `canClaimOwn == false` regardless of `now`, and
`canClaimAsOther` is true exactly when the viewer differs from the creator
case-insensitively — in particular the creator cannot claim their own failed
task. -/
theorem claim5_failed_thirdParty (r : ContractTask) (now : Nat) (u : String)
    (h0 : r.status = TaskStatus.Failed) (hu : u ≠ "") :
    (classify r now (some u)).uiStatus = UiStatus.failed ∧
    (classify r now (some u)).canSubmitProof = false ∧
    (classify r now (some u)).canClaimOwn = false ∧
    (classify r now (some u)).canClaimAsOther =
      decide (toLowerCase r.user ≠ toLowerCase u) := by
  have hst := formatTaskData_status_failed r now h0
  refine ⟨by rw [classify_uiStatus]; exact hst, ?_, ?_, ?_⟩
  · rw [classify_canSubmitProof]
    simp [canSubmitProofForTask, hu, hst]
  · rw [classify_canClaimOwn]
    simp [canClaimTask, hu, hst]
  · rw [classify_canClaimAsOther]
    simp [canClaimFailedTask, hu, hst, formatTaskData_creator]

/-- Witness for C5 at a concrete input: the creator (same address, different
case) cannot claim their own failed task, matching the decide-form right-hand
side. -/
theorem claim5_witness :
    (classify { sampleTask with status := TaskStatus.Failed } 50
      (some "0xabc")).uiStatus = UiStatus.failed ∧
    (classify { sampleTask with status := TaskStatus.Failed } 50
      (some "0xabc")).canSubmitProof = false ∧
    (classify { sampleTask with status := TaskStatus.Failed } 50
      (some "0xabc")).canClaimOwn = false ∧
    (classify { sampleTask with status := TaskStatus.Failed } 50
      (some "0xabc")).canClaimAsOther =
      decide (toLowerCase ({ sampleTask with status := TaskStatus.Failed } : ContractTask).user ≠
        toLowerCase "0xabc") :=
  claim5_failed_thirdParty { sampleTask with status := TaskStatus.Failed } 50
    "0xabc" rfl (by decide)

/-- Claim C6: whenever the resolver yields `canClaimOwn == true`, the task is
shown as completed, the viewer matches the creator case-insensitively, and
the stake has not already been claimed, where already-claimed is inferred as
`coarseStatus == Complete` with zero deposit. -/
theorem claim6_claimOwn_inversion (r : ContractTask) (now : Nat)
    (viewer : Option String)
    (h : (classify r now viewer).canClaimOwn = true) :
    (classify r now viewer).uiStatus = UiStatus.completed ∧
    viewerMatches viewer r.user = true ∧
    (decide (r.status = TaskStatus.Complete) && decide (r.deposit = 0)) = false := by
  rw [classify_canClaimOwn] at h
  cases viewer with
  | none => simp [canClaimTask] at h
  | some u =>
    by_cases hu : u = ""
    · simp [canClaimTask, hu] at h
    · rw [canClaimTask] at h
      simp only [hu, if_false, Bool.and_eq_true, decide_eq_true_eq,
        Bool.not_eq_true', formatTaskData_creator, formatTaskData_claimed] at h
      obtain ⟨⟨hown, hcomp⟩, hcl⟩ := h
      refine ⟨by rw [classify_uiStatus]; exact hcomp, ?_, hcl⟩
      simp [viewerMatches, hu, hown]

/-- Witness for C6 at a concrete input: a completed, unclaimed task viewed by
its creator (different letter case) has `canClaimOwn = true`, and the
consequences hold there. -/
theorem claim6_witness :
    (classify { sampleTask with status := TaskStatus.Complete } 50
      (some "0xabc")).uiStatus = UiStatus.completed ∧
    viewerMatches (some "0xabc")
      ({ sampleTask with status := TaskStatus.Complete } : ContractTask).user = true ∧
    (decide (({ sampleTask with status := TaskStatus.Complete } : ContractTask).status =
        TaskStatus.Complete) &&
      decide (({ sampleTask with status := TaskStatus.Complete } : ContractTask).deposit = 0)) =
      false :=
  claim6_claimOwn_inversion { sampleTask with status := TaskStatus.Complete } 50
    (some "0xabc") (by decide)

/-- Claim C7: for every task record and `now`, when the viewer identity is
absent all three eligibility flags are false, while the UI status is still
computed — it is the same status the resolver yields for any viewer. -/
theorem claim7_anonymous_flags (r : ContractTask) (now : Nat) :
    (classify r now none).canSubmitProof = false ∧
    (classify r now none).canClaimOwn = false ∧
    (classify r now none).canClaimAsOther = false ∧
    ∀ viewer : Option String,
      (classify r now viewer).uiStatus = (classify r now none).uiStatus :=
  ⟨rfl, rfl, rfl, fun _ => rfl⟩

theorem toLowerCase_eq_empty_iff (s : String) : toLowerCase s = "" ↔ s = "" := by
  constructor
  · intro h
    have hd : s.data.map Char.toLower = [] := congrArg String.data h
    have hnil : s.data = [] := List.map_eq_nil_iff.mp hd
    cases s with
    | mk data =>
      cases hnil
      rfl
  · intro h
    subst h
    rfl

/-- Claim C8: two resolver runs whose viewer strings differ only in letter
case (same character-wise lower-casing) yield identical eligibility flags in
every branch. -/
theorem claim8_case_insensitive (r : ContractTask) (now : Nat) (u v : String)
    (h : toLowerCase u = toLowerCase v) :
    (classify r now (some u)).canSubmitProof =
      (classify r now (some v)).canSubmitProof ∧
    (classify r now (some u)).canClaimOwn =
      (classify r now (some v)).canClaimOwn ∧
    (classify r now (some u)).canClaimAsOther =
      (classify r now (some v)).canClaimAsOther := by
  have he : (u = "") ↔ (v = "") := by
    rw [← toLowerCase_eq_empty_iff u, ← toLowerCase_eq_empty_iff v, h]
  rw [classify_canSubmitProof, classify_canSubmitProof, classify_canClaimOwn,
    classify_canClaimOwn, classify_canClaimAsOther, classify_canClaimAsOther]
  by_cases hu : u = ""
  · have hv : v = "" := he.mp hu
    simp [canSubmitProofForTask, canClaimTask, canClaimFailedTask, hu, hv]
  · have hv : ¬ v = "" := fun hv => hu (he.mpr hv)
    simp [canSubmitProofForTask, canClaimTask, canClaimFailedTask, hu, hv, h]

/-- Witness for C8 at a concrete input: viewers `"0xABC"` and `"0xabc"` get
identical flags on the sample task. -/
theorem claim8_witness :
    (classify sampleTask 50 (some "0xABC")).canSubmitProof =
      (classify sampleTask 50 (some "0xabc")).canSubmitProof ∧
    (classify sampleTask 50 (some "0xABC")).canClaimOwn =
      (classify sampleTask 50 (some "0xabc")).canClaimOwn ∧
    (classify sampleTask 50 (some "0xABC")).canClaimAsOther =
      (classify sampleTask 50 (some "0xabc")).canClaimAsOther :=
  claim8_case_insensitive sampleTask 50 "0xABC" "0xabc" (by decide)

theorem eligibility_flags_exclusive (t : FormattedTask) (viewer : Option String)
    (now : Nat) :
    (canSubmitProofForTask t viewer now && canClaimTask t viewer) = false ∧
    (canSubmitProofForTask t viewer now && canClaimFailedTask t viewer) = false ∧
    (canClaimTask t viewer && canClaimFailedTask t viewer) = false := by
  cases viewer with
  | none => simp [canSubmitProofForTask, canClaimTask, canClaimFailedTask]
  | some u =>
    by_cases hu : u = ""
    · simp [canSubmitProofForTask, canClaimTask, canClaimFailedTask, hu]
    · cases hs : t.status <;>
        simp [canSubmitProofForTask, canClaimTask, canClaimFailedTask, hu, hs]

/-- Claim C9: for every task record, `now`, and viewer, at most one of the
three eligibility flags is true: each requires a distinct `uiStatus`
(active, completed, failed respectively), so they are pairwise exclusive. -/
theorem claim9_at_most_one_flag (r : ContractTask) (now : Nat)
    (viewer : Option String) :
    ((classify r now viewer).canSubmitProof &&
      (classify r now viewer).canClaimOwn) = false ∧
    ((classify r now viewer).canSubmitProof &&
      (classify r now viewer).canClaimAsOther) = false ∧
    ((classify r now viewer).canClaimOwn &&
      (classify r now viewer).canClaimAsOther) = false :=
  eligibility_flags_exclusive (formatTaskData r now) viewer now

/-- Claim C10: for every task record whose raw `status` lies outside
`{InProgress, Complete, Failed}` the resolver is still total and takes the
default branch: `uiStatus` defaults to active, the internal `canSubmitProof`
flag is true exactly when the proof reference is empty and the deadline has
not passed, and `canClaim` is false. -/
theorem claim10_default_branch (r : ContractTask) (now : Nat)
    (h0 : r.status ≠ TaskStatus.InProgress) (h1 : r.status ≠ TaskStatus.Complete)
    (h2 : r.status ≠ TaskStatus.Failed) :
    (formatTaskData r now).status = UiStatus.active ∧
    (formatTaskData r now).canSubmitProof =
      (decide (r.proofOfCompletion = "") && decide (now ≤ r.deadline)) ∧
    (formatTaskData r now).canClaim = false := by
  refine ⟨?_, ?_, ?_⟩
  · simp [formatTaskData, h0, h1, h2]
  · have hdef : (formatTaskData r now).canSubmitProof =
        (!decide (r.proofOfCompletion ≠ "") && !decide (r.deadline < now)) := by
      simp [formatTaskData, h0, h1, h2]
    rw [hdef]
    simp only [← decide_not, not_not, Nat.not_lt]
  · simp [formatTaskData, h0, h1, h2]

/-- Witness for C10 at a concrete input: raw status 7 falls to the default
branch. -/
theorem claim10_witness :
    (formatTaskData { sampleTask with status := 7 } 50).status = UiStatus.active ∧
    (formatTaskData { sampleTask with status := 7 } 50).canSubmitProof =
      (decide (({ sampleTask with status := 7 } : ContractTask).proofOfCompletion = "") &&
        decide (50 ≤ ({ sampleTask with status := 7 } : ContractTask).deadline)) ∧
    (formatTaskData { sampleTask with status := 7 } 50).canClaim = false :=
  claim10_default_branch { sampleTask with status := 7 } 50 (by decide)
    (by decide) (by decide)
